import Mathlib

/-!
Verification of the real-time classification worker pool of DeepLabStream
(experiments/custom/dlstream_origin/classifier.py and experiments/custom/triggers.py).

Shallow embedding conventions:
- a multiprocessing.Queue of capacity 1 (a mailbox) is an Option value:
  none is an empty mailbox, some x a full one holding x;
- a WorkerSlot dictionary (process, input, output, running) becomes the
  structure Slot; the process handle carries no pool-visible state;
- Python float probabilities are modelled as exact rationals;
- the external collaborators that are not part of the analysed sources
  (the feature transform, the classifier, angle_between_vectors and the
  ROI geometry from utils/analysis.py) are opaque parameters;
- where Python can raise (attribute or local-variable errors), the
  embedded function returns Except.
-/

namespace DLStream

/-- One worker slot of FeatureExtractionClassifierProcessPool: the dictionary
dict(process=..., input=mp.Queue(1), output=mp.Queue(1), running=False).
W is the type of items in the input mailbox, R of results in the output one. -/
structure Slot (W R : Type) where
  running : Bool
  input : Option W
  output : Option R
  deriving Repr, DecidableEq

/-- initiate_pool: pool_size slots, each with both mailboxes empty and
running = False. -/
def freshSlot {W R : Type} : Slot W R :=
  { running := false, input := none, output := none }

/-- The process pool right after initiate_pool: a fixed-order list of fresh
slots. -/
def initiate_pool (W R : Type) (pool_size : Nat) : List (Slot W R) :=
  List.replicate pool_size freshSlot

/-- FeatureExtractionClassifierProcessPool.pass_time_window, lines 297-331:
one scan over the pool in fixed index order; at an unfed slot
(not running) the item is assigned iff the input mailbox is empty (and the
slot is marked running, then break); at a fed slot the item is assigned iff
the input mailbox is empty and the output mailbox is full (then break);
otherwise the scan moves to the next slot. If the scan ends with no
assignment the item is dropped. -/
def pass_time_window {W R : Type} (item : W) : List (Slot W R) → List (Slot W R)
  | [] => []
  | s :: rest =>
    if !s.running then
      if s.input.isNone then
        { s with input := some item, running := true } :: rest
      else
        s :: pass_time_window item rest
    else if s.input.isNone && s.output.isSome then
      { s with input := some item } :: rest
    else
      s :: pass_time_window item rest

/-- FeatureExtractionClassifierProcessPool.get_result, lines 333-352:
result starts as the sentinel (None, 0); the scan takes the output of the
first slot whose output mailbox is full, draining that mailbox, and stops.
Results carry a payload and a feature id. Returns the result together with
the updated pool. -/
def get_result {W P : Type} :
    List (Slot W (P × Nat)) → (Option P × Nat) × List (Slot W (P × Nat))
  | [] => ((none, 0), [])
  | s :: rest =>
    match s.output with
    | some pr => ((some pr.1, pr.2), { s with output := none } :: rest)
    | none =>
      let r := get_result rest
      (r.1, s :: r.2)

/-- A slot is eligible to receive an offered item in the single scan of
pass_time_window: an unfed slot with empty input, or a fed slot with empty
input and full output. -/
def eligible {W R : Type} (s : Slot W R) : Bool :=
  (!s.running && s.input.isNone) || (s.running && s.input.isNone && s.output.isSome)

/-- Single-scan specification of dispatch: the first eligible slot in index
order receives the item and is marked running; every other slot is
untouched. -/
def dispatch_spec {W R : Type} (item : W) : List (Slot W R) → List (Slot W R)
  | [] => []
  | s :: rest =>
    if eligible s then
      { s with input := some item, running := true } :: rest
    else
      s :: dispatch_spec item rest

/-- Back-to-back dispatch of a list of windows (no intervening collection). -/
def dispatch_seq {W R : Type} (ws : List W) (pool : List (Slot W R)) : List (Slot W R) :=
  ws.foldl (fun p w => pass_time_window w p) pool

/-- A slot that has been fed by the warm-up rule and whose worker has not
consumed the item: running, input full, output empty. -/
def fedFull {W R : Type} (w : W) : Slot W R :=
  { running := true, input := some w, output := none }

/-- collections.deque with a maximum length, appending on the right: the
oldest (leftmost) entries are dropped once the length would exceed maxlen. -/
def deque_append {α : Type} (maxlen : Nat) (xs : List α) (x : α) : List α :=
  let ys := xs ++ [x]
  if maxlen < ys.length then ys.drop (ys.length - maxlen) else ys

/-- State of SimbaThresholdBehaviorPoolTrigger (triggers.py lines 681-786):
the configured threshold, the cached probability (init 0.0), the per-trigger
feature id counter (init 0), the window capacity TIME_WINDOW and the sliding
window deque. The type of transformed frames is a parameter alpha; the flat
numpy row built by fill_time_window (transform_2pose, flatten, zero padding
to width 28) is produced by an opaque transform supplied to the functions
below, since utils/poser.py is an external collaborator. -/
structure SimbaThresholdBehaviorPoolTrigger (α : Type) where
  trigger_threshold : ℚ
  last_prob : ℚ
  feature_id : Nat
  time_window_len : Nat
  time_window : List α
  deriving Repr, DecidableEq

/-- The init method of SimbaThresholdBehaviorPoolTrigger. -/
def simba_trigger_init (α : Type) (prob_threshold : ℚ) (tw_len : Nat) :
    SimbaThresholdBehaviorPoolTrigger α :=
  { trigger_threshold := prob_threshold, last_prob := 0, feature_id := 0,
    time_window_len := tw_len, time_window := [] }

/-- The pool used by the Simba trigger: input mailboxes hold (window, id)
work items, output mailboxes hold (probability, id) results. -/
abbrev SimbaPool (α : Type) := List (Slot (List α × Nat) (ℚ × Nat))

/-- SimbaThresholdBehaviorPoolTrigger.fill_time_window: transform the
skeleton (opaque t, standing for the select-flatten-pad pipeline) and append
it to the deque. -/
def fill_time_window {Skel α : Type} (t : Skel → α)
    (tr : SimbaThresholdBehaviorPoolTrigger α) (skeleton : Skel) :
    SimbaThresholdBehaviorPoolTrigger α :=
  { tr with time_window := deque_append tr.time_window_len tr.time_window (t skeleton) }

/-- The cache update inside check_skeleton: if result is not None overwrite
last_prob, else keep it. -/
def collect_update {α : Type} (tr : SimbaThresholdBehaviorPoolTrigger α)
    (res : Option ℚ) : SimbaThresholdBehaviorPoolTrigger α :=
  match res with
  | some p => { tr with last_prob := p }
  | none => tr

/-- The per-call threshold override inside check_skeleton: if target_prob is
not None it replaces the configured threshold. -/
def threshold_update {α : Type} (tr : SimbaThresholdBehaviorPoolTrigger α)
    (target_prob : Option ℚ) : SimbaThresholdBehaviorPoolTrigger α :=
  match target_prob with
  | some tp => { tr with trigger_threshold := tp }
  | none => tr

/-- SimbaThresholdBehaviorPoolTrigger.check_skeleton (lines 732-777): fill
the window; if the window reached capacity, increment the feature id and
offer (window, id) to the pool; collect once; overwrite the cached
probability if a non-sentinel result came back; apply the per-call threshold
override; decide threshold <= cached probability. Returns the decision, the
new trigger state and the new pool (the plot payload of the source, a text
with the cached probability, carries no further state and is omitted). -/
def check_skeleton {Skel α : Type} (t : Skel → α)
    (tr : SimbaThresholdBehaviorPoolTrigger α) (pool : SimbaPool α)
    (skeleton : Skel) (target_prob : Option ℚ) :
    Bool × SimbaThresholdBehaviorPoolTrigger α × SimbaPool α :=
  let tr1 := fill_time_window t tr skeleton
  let step :=
    if tr1.time_window.length = tr1.time_window_len then
      let tr2 := { tr1 with feature_id := tr1.feature_id + 1 }
      (tr2, pass_time_window (tr2.time_window, tr2.feature_id) pool)
    else
      (tr1, pool)
  let collected := get_result step.2
  let tr3 := collect_update step.1 collected.1.1
  let tr4 := threshold_update tr3 target_prob
  (decide (tr4.trigger_threshold ≤ tr4.last_prob), tr4, collected.2)

/-- The pool that check_skeleton hands to get_result: the input pool, after
the dispatch attempt when the freshly filled window reached capacity. -/
def dispatched_pool {Skel α : Type} (t : Skel → α)
    (tr : SimbaThresholdBehaviorPoolTrigger α) (pool : SimbaPool α)
    (skeleton : Skel) : SimbaPool α :=
  let w := deque_append tr.time_window_len tr.time_window (t skeleton)
  if w.length = tr.time_window_len then
    pass_time_window (w, tr.feature_id + 1) pool
  else
    pool

/-- The dispatch attempt of check_skeleton as an observation: the WorkItem
(window, incremented id) that the call offers to the pool when the freshly
filled window has reached capacity, and none when no dispatch attempt
happens. -/
def offered_item {Skel α : Type} (t : Skel → α)
    (tr : SimbaThresholdBehaviorPoolTrigger α) (skeleton : Skel) :
    Option (List α × Nat) :=
  let w := deque_append tr.time_window_len tr.time_window (t skeleton)
  if w.length = tr.time_window_len then some (w, tr.feature_id + 1) else none

/-- Feeding a list of frames one at a time through check_skeleton (without
per-call threshold override), recording for each frame the dispatch attempt
observed by offered_item. Returns the final trigger and pool state and the
per-frame dispatch-attempt trace. -/
def run_check {Skel α : Type} (t : Skel → α) :
    SimbaThresholdBehaviorPoolTrigger α × SimbaPool α → List Skel →
    (SimbaThresholdBehaviorPoolTrigger α × SimbaPool α) × List (Option (List α × Nat))
  | sp, [] => (sp, [])
  | sp, f :: fs =>
    let out := check_skeleton t sp.1 sp.2 f none
    let rest := run_check t (out.2.1, out.2.2) fs
    (rest.1, offered_item t sp.1 f :: rest.2)

/-- collections.deque with a maximum length, appending on the left
(appendleft): entries past maxlen are dropped on the right. -/
def deque_appendleft {α : Type} (maxlen : Nat) (xs : List α) (x : α) : List α :=
  (x :: xs).take maxlen

/-- State of BsoidClassBehaviorPoolTrigger (triggers.py lines 789-887): the
target label list, the cached label list (init [-1]), the feature id
counter, the window capacity and the window deque. Labels are the integer
cluster ids produced by the BSOID classifier. -/
structure BsoidClassBehaviorPoolTrigger (α : Type) where
  trigger : List Int
  last_result : List Int
  feature_id : Nat
  time_window_len : Nat
  time_window : List α
  deriving Repr, DecidableEq

/-- The init method of BsoidClassBehaviorPoolTrigger. -/
def bsoid_trigger_init (α : Type) (targetCls : List Int) (tw_len : Nat) :
    BsoidClassBehaviorPoolTrigger α :=
  { trigger := targetCls, last_result := [-1], feature_id := 0,
    time_window_len := tw_len, time_window := [] }

/-- The pool used by the Bsoid trigger: output mailboxes hold a list of
label lists (one per sub-window) together with the feature id, as put by
bsoid_feat_classifier_pool_run. -/
abbrev BsoidPool (α : Type) := List (Slot (List α × Nat) (List (List Int) × Nat))

/-- BsoidClassBehaviorPoolTrigger.fill_time_window: transform_2pose (opaque
t) and appendleft onto the deque. -/
def bsoid_fill_time_window {Skel α : Type} (t : Skel → α)
    (tr : BsoidClassBehaviorPoolTrigger α) (skeleton : Skel) :
    BsoidClassBehaviorPoolTrigger α :=
  { tr with time_window := deque_appendleft tr.time_window_len tr.time_window (t skeleton) }

/-- The accumulate-and-dispatch prefix of the Bsoid check_skeleton: fill the
window and, when it reached capacity, increment the feature id and offer
(window, id) to the pool. -/
def bsoid_step {Skel α : Type} (t : Skel → α)
    (tr : BsoidClassBehaviorPoolTrigger α) (pool : BsoidPool α) (skeleton : Skel) :
    BsoidClassBehaviorPoolTrigger α × BsoidPool α :=
  let tr1 := bsoid_fill_time_window t tr skeleton
  if tr1.time_window.length = tr1.time_window_len then
    ({ tr1 with feature_id := tr1.feature_id + 1 },
      pass_time_window (tr1.time_window, tr1.feature_id + 1) pool)
  else
    (tr1, pool)

/-- The per-call target override of the Bsoid check_skeleton: a non-None
target_class argument replaces the stored target list. -/
def target_update {α : Type} (tr : BsoidClassBehaviorPoolTrigger α)
    (targetCls : Option (List Int)) : BsoidClassBehaviorPoolTrigger α :=
  match targetCls with
  | some c => { tr with trigger := c }
  | none => tr

/-- The decision loop of the Bsoid check_skeleton: result starts False and
the loop over the indices of the target list sets it True whenever the
cached head label equals the target at that index. -/
def match_loop (v : Int) : List Int → Bool → Bool
  | [], result => result
  | c :: cs, result => match_loop v cs (if v = c then true else result)

/-- Message of the Python IndexError raised by indexing an empty list. -/
def indexError : String := "IndexError: list index out of range"

/-- The tail of the Bsoid check_skeleton after the cache update: apply the
per-call target override, then run the decision loop on the head of the
cached label list (Python raises IndexError on an empty cache). -/
def bsoid_decide {α : Type} (tr : BsoidClassBehaviorPoolTrigger α)
    (targetCls : Option (List Int)) (pool : BsoidPool α) :
    Except String (Bool × BsoidClassBehaviorPoolTrigger α × BsoidPool α) :=
  let tr4 := target_update tr targetCls
  match tr4.last_result with
  | [] => Except.error indexError
  | v :: _ => Except.ok (match_loop v tr4.trigger false, tr4, pool)

/-- BsoidClassBehaviorPoolTrigger.check_skeleton (lines 825-878): fill and
dispatch, collect once, overwrite the cached label list with the first
entry of a non-sentinel result (Python raises IndexError when that result
is an empty list), apply the per-call target override, then decide by the
equality loop over the target list. The plot payload carries no state and
is omitted. -/
def bsoid_check_skeleton {Skel α : Type} (t : Skel → α)
    (tr : BsoidClassBehaviorPoolTrigger α) (pool : BsoidPool α)
    (skeleton : Skel) (targetCls : Option (List Int)) :
    Except String (Bool × BsoidClassBehaviorPoolTrigger α × BsoidPool α) :=
  let step := bsoid_step t tr pool skeleton
  let collected := get_result step.2
  match collected.1.1 with
  | some [] => Except.error indexError
  | some (l0 :: _) => bsoid_decide { step.1 with last_result := l0 } targetCls collected.2
  | none => bsoid_decide step.1 targetCls collected.2

/-- One completed cycle of the worker loop simba_feat_classifier_pool_run
(classifier.py lines 156-194) at a single slot: when the input mailbox is
full, the worker takes the (window, feature id) item, applies feature
extraction and classification (opaque f), and puts (probability, the same
feature id) into the output mailbox. The put blocks the worker while the
output mailbox is still full, so a completed cycle requires an empty output
mailbox; the id is echoed unchanged. -/
def worker_step {α : Type} (f : List α → ℚ) (s : Slot (List α × Nat) (ℚ × Nat)) :
    Slot (List α × Nat) (ℚ × Nat) :=
  match s.input, s.output with
  | some it, none => { s with input := none, output := some (f it.1, it.2) }
  | _, _ => s

/-- Apply a function to the slot at a given index, leaving the rest of the
pool unchanged. -/
def modify_slot {S : Type} (g : S → S) : Nat → List S → List S
  | _, [] => []
  | 0, s :: rest => g s :: rest
  | i + 1, s :: rest => s :: modify_slot g i rest

/-- An interleaving event of the running system: a frame arriving at the
trigger (with its optional per-call threshold), or slot i of the pool
completing one worker cycle. -/
inductive SysEvent (Skel : Type) where
  | frame (skeleton : Skel) (target_prob : Option ℚ)
  | work (i : Nat)

/-- The trigger-plus-pool system, with a ghost log recording every WorkItem
handed to the pool by a dispatch attempt. -/
structure SimbaSystem (α : Type) where
  trig : SimbaThresholdBehaviorPoolTrigger α
  pool : SimbaPool α
  log : List (List α × Nat)

/-- One system transition: a frame event runs check_skeleton (appending the
offered WorkItem, if any, to the ghost log); a work event runs one worker
cycle at the named slot. -/
def sys_step {Skel α : Type} (t : Skel → α) (f : List α → ℚ)
    (s : SimbaSystem α) : SysEvent Skel → SimbaSystem α
  | SysEvent.frame sk tp =>
    let out := check_skeleton t s.trig s.pool sk tp
    { trig := out.2.1, pool := out.2.2,
      log := (offered_item t s.trig sk).elim s.log (fun it => s.log ++ [it]) }
  | SysEvent.work i => { s with pool := modify_slot (worker_step f) i s.pool }

/-- Run the system over a list of events. -/
def sys_run {Skel α : Type} (t : Skel → α) (f : List α → ℚ)
    (events : List (SysEvent Skel)) (s0 : SimbaSystem α) : SimbaSystem α :=
  events.foldl (sys_step t f) s0

/-- The freshly constructed system: a new trigger and a freshly initiated
pool of n slots; nothing dispatched yet. -/
def sys_init (α : Type) (thr : ℚ) (wlen n : Nat) : SimbaSystem α :=
  { trig := simba_trigger_init α thr wlen,
    pool := initiate_pool (List α × Nat) (ℚ × Nat) n, log := [] }

/-- Every feature id sitting in either mailbox of the slot is at least 1. -/
def slot_ids_ok {α : Type} (s : Slot (List α × Nat) (ℚ × Nat)) : Prop :=
  (∀ w fid, s.input = some (w, fid) → 1 ≤ fid)
  ∧ (∀ p fid, s.output = some (p, fid) → 1 ≤ fid)

/-- Every feature id in any mailbox of the pool is at least 1. -/
def pool_ids_ok {α : Type} (pool : SimbaPool α) : Prop :=
  ∀ s ∈ pool, slot_ids_ok s

/-- System invariant: the ids of the WorkItems handed to the pool so far are
exactly 1, 2, ..., feature_id in order (so they start at 1 and strictly
increase, one per dispatch attempt), and every id in any mailbox is at
least 1. -/
def sys_inv {α : Type} (s : SimbaSystem α) : Prop :=
  s.log.map Prod.snd = List.range' 1 s.trig.feature_id ∧ pool_ids_ok s.pool

/-- The external angle_between_vectors from utils/analysis.py, an opaque
pure function from six coordinates to (head direction string, angle). -/
abbrev AngleFn : Type := ℚ → ℚ → ℚ → ℚ → ℚ → ℚ → String × ℚ

/-- A well-formed skeleton: a total map from body-part name to coordinates. -/
abbrev Skeleton : Type := String → ℚ × ℚ

/-- Body-part key used by the head-direction triggers. -/
def neckKey : String := "neck"

/-- Body-part key used by the head-direction triggers. -/
def noseKey : String := "nose"

/-- Body-part key used by the egocentric head-direction trigger. -/
def tailrootKey : String := "tailroot"

/-- The egocentric direction value accepting both sides. -/
def bothDir : String := "both"

/-- Egocentric direction value: left. -/
def leftDir : String := "left"

/-- Egocentric direction value: right. -/
def rightDir : String := "right"

/-- Message of the Python AttributeError raised by reading the attribute
_end_point, which no code path of the head-direction triggers defines. -/
def endPointError : String := "AttributeError: _end_point"

/-- Message of the Python UnboundLocalError raised when the local variable
result of EgoHeaddirectionTrigger.check_skeleton is read unassigned. -/
def unboundLocalError : String := "UnboundLocalError: result"

/-- Response body of the head-direction triggers: the plain angle payload of
the non-debug path, or the debug plot payload (angle text, its org point,
the circle center, radius and color). -/
inductive HeadResponse where
  | angleBody (true_angle : ℚ)
  | plotBody (text_angle : ℚ) (org : ℚ × ℚ) (center : ℚ × ℚ) (radius : ℚ)
      (color : Nat × Nat × Nat)
  deriving Repr, DecidableEq

/-- State of HeaddirectionTrigger (triggers.py lines 243-293). The init
method stores only point, angle and debug; the attribute _end_point read by
the debug branch of check_skeleton is never assigned anywhere in the class,
which the Option field records. -/
structure HeaddirectionTrigger where
  point : ℚ × ℚ
  angle : ℚ
  debug : Bool
  end_point : Option String

/-- The init method of HeaddirectionTrigger: _end_point stays undefined. -/
def headdirection_init (angle : ℚ) (point : ℚ × ℚ) (debug : Bool) : HeaddirectionTrigger :=
  { point := point, angle := angle, debug := debug, end_point := none }

/-- HeaddirectionTrigger.check_skeleton (lines 257-293): angle between the
neck-to-nose vector and the reference point, decision true iff the absolute
angle is at most the configured one; the debug branch reads the undefined
attribute _end_point before building its plot payload. -/
def HeaddirectionTrigger.check_skeleton (abv : AngleFn) (tr : HeaddirectionTrigger)
    (skeleton : Skeleton) : Except String (Bool × HeadResponse) :=
  let neck := skeleton neckKey
  let nose := skeleton noseKey
  let a := (abv neck.1 neck.2 nose.1 nose.2 tr.point.1 tr.point.2).2
  let true_angle := |a|
  let result := decide (true_angle ≤ tr.angle)
  let color := if result then ((0, 255, 0) : Nat × Nat × Nat) else (0, 0, 255)
  if tr.debug then
    match tr.end_point with
    | none => Except.error endPointError
    | some ep => Except.ok (result, HeadResponse.plotBody true_angle (skeleton ep) nose 5 color)
  else
    Except.ok (result, HeadResponse.angleBody true_angle)

/-- State of EgoHeaddirectionTrigger (triggers.py lines 296-352); as above,
_end_point is never assigned. -/
structure EgoHeaddirectionTrigger where
  head_dir : String
  angle : ℚ
  debug : Bool
  end_point : Option String

/-- The init method of EgoHeaddirectionTrigger: _end_point stays undefined. -/
def ego_headdirection_init (angle : ℚ) (hd : String) (debug : Bool) : EgoHeaddirectionTrigger :=
  { head_dir := hd, angle := angle, debug := debug, end_point := none }

/-- EgoHeaddirectionTrigger.check_skeleton (lines 310-352). The source
assigns the local result only when the angle condition fails, or when it
holds and the configured direction equals the returned one or is the value
both; on the remaining path result stays unassigned and the line computing
the color raises UnboundLocalError, modelled by the none case of the
optional decision. The debug branch afterwards reads the undefined
attribute _end_point. -/
def EgoHeaddirectionTrigger.check_skeleton (abv : AngleFn) (tr : EgoHeaddirectionTrigger)
    (skeleton : Skeleton) : Except String (Bool × HeadResponse) :=
  let tailroot := skeleton tailrootKey
  let neck := skeleton neckKey
  let nose := skeleton noseKey
  let hd_a := abv tailroot.1 tailroot.2 neck.1 neck.2 nose.1 nose.2
  let true_angle := 180 - |hd_a.2|
  let optResult : Option Bool :=
    if true_angle ≤ tr.angle then
      if tr.head_dir = hd_a.1 then some true
      else if tr.head_dir = bothDir then some true
      else none
    else some false
  match optResult with
  | none => Except.error unboundLocalError
  | some result =>
    let color := if result then ((0, 255, 0) : Nat × Nat × Nat) else (0, 0, 255)
    if tr.debug then
      match tr.end_point with
      | none => Except.error endPointError
      | some ep =>
        Except.ok (result, HeadResponse.plotBody true_angle (skeleton ep) nose 5 color)
    else
      Except.ok (result, HeadResponse.angleBody true_angle)

/-- The condition under which the local result of the egocentric trigger
stays unassigned: angle condition met, configured direction neither the
returned one nor both. -/
def ego_result_unassigned (abv : AngleFn) (angle : ℚ) (hd : String)
    (skeleton : Skeleton) : Bool :=
  let tailroot := skeleton tailrootKey
  let neck := skeleton neckKey
  let nose := skeleton noseKey
  let hd_a := abv tailroot.1 tailroot.2 neck.1 neck.2 nose.1 nose.2
  decide (180 - |hd_a.2| ≤ angle) && !(decide (hd = hd_a.1)) && !(decide (hd = bothDir))

/-- The angle value computed by the egocentric trigger. -/
def ego_true_angle (abv : AngleFn) (skeleton : Skeleton) : ℚ :=
  let tailroot := skeleton tailrootKey
  let neck := skeleton neckKey
  let nose := skeleton noseKey
  180 - |(abv tailroot.1 tailroot.2 neck.1 neck.2 nose.1 nose.2).2|

/-- The type of a region of interest: the constructor of RegionTrigger
accepts exactly the keys circle and square of its region_types dictionary
(any other key raises KeyError at construction). -/
inductive ROIKind where
  | circle
  | square
  deriving Repr, DecidableEq

/-- The external ROI object (EllipseROI or RectangleROI from
utils/analysis.py): an opaque membership predicate together with the
accessors the response body uses. -/
structure ROIObj where
  check_point : ℚ → ℚ → Bool
  center : ℚ × ℚ
  x_radius : ℚ
  box : ℚ × ℚ × ℚ × ℚ

/-- Python int() on a rational: truncation toward zero. -/
def pyInt (q : ℚ) : Int := q.num / (q.den : Int)

/-- Response body of the region triggers: the circle or the square plot. -/
inductive RegionResponse where
  | circleBody (center : ℚ × ℚ) (radius : Int) (color : Nat × Nat × Nat)
  | squareBody (pt1 pt2 : ℚ × ℚ) (color : Nat × Nat × Nat)

/-- State of RegionTrigger (triggers.py lines 441-508): the ROI kind, the
constructed ROI object, the checked body part or list of body parts, and
the unused debug flag. -/
structure RegionTrigger where
  roi_type : ROIKind
  region_of_interest : ROIObj
  bodyparts : String ⊕ List String
  debug : Bool

/-- RegionTrigger.check_skeleton (lines 471-508): membership of the body
part (or any of the listed body parts) in the ROI; the response body is the
circle or square plot with a color reflecting the decision. -/
def RegionTrigger.check_skeleton (tr : RegionTrigger) (skeleton : Skeleton) :
    Bool × RegionResponse :=
  let result :=
    match tr.bodyparts with
    | Sum.inr parts =>
      (parts.map (fun part =>
        tr.region_of_interest.check_point (skeleton part).1 (skeleton part).2)).any (fun b => b)
    | Sum.inl part => tr.region_of_interest.check_point (skeleton part).1 (skeleton part).2
  let color := if result then ((0, 255, 0) : Nat × Nat × Nat) else (0, 0, 255)
  let body :=
    match tr.roi_type with
    | ROIKind.circle =>
      RegionResponse.circleBody tr.region_of_interest.center
        (pyInt tr.region_of_interest.x_radius) color
    | ROIKind.square =>
      let box := tr.region_of_interest.box
      RegionResponse.squareBody (box.1, box.2.2.2) (box.2.2.1, box.2.1) color
  (result, body)

/-- OutsideTrigger (lines 511-546): its init method only calls the
RegionTrigger init with the same arguments, so an identically constructed
OutsideTrigger carries exactly the same state as the RegionTrigger. -/
def OutsideTrigger : Type := RegionTrigger

/-- OutsideTrigger.check_skeleton (lines 537-546): call the RegionTrigger
check_skeleton and flip the boolean, keeping the response body. -/
def OutsideTrigger.check_skeleton (tr : OutsideTrigger) (skeleton : Skeleton) :
    Bool × RegionResponse :=
  let r := RegionTrigger.check_skeleton tr skeleton
  (!r.1, r.2)

lemma pass_time_window_fedFull {W R : Type} (item w : W) (rest : List (Slot W R)) :
    pass_time_window item (fedFull w :: rest) = fedFull w :: pass_time_window item rest := by
  simp [pass_time_window, fedFull]

lemma pass_time_window_fresh {W R : Type} (item : W) (rest : List (Slot W R)) :
    pass_time_window item (freshSlot :: rest) = fedFull item :: rest := by
  simp [pass_time_window, freshSlot, fedFull]

lemma dispatch_seq_saturate {W R : Type} (ws acc : List W) :
    dispatch_seq ws ((acc.map fedFull : List (Slot W R)) ++ initiate_pool W R ws.length)
      = (acc ++ ws).map fedFull := by
  induction ws generalizing acc with
  | nil => simp [dispatch_seq, initiate_pool]
  | cons w ws ih =>
    have hstep :
        pass_time_window w ((acc.map fedFull : List (Slot W R)) ++ initiate_pool W R (w :: ws).length)
          = ((acc ++ [w]).map fedFull : List (Slot W R)) ++ initiate_pool W R ws.length := by
      induction acc with
      | nil => simp [initiate_pool, List.replicate_succ, pass_time_window_fresh, fedFull]
      | cons a as iha => simpa [pass_time_window_fedFull] using iha
    have := ih (acc ++ [w])
    simp only [dispatch_seq, List.foldl_cons] at *
    rw [hstep]
    simpa using this

lemma pass_time_window_full_pool {W R : Type} (item : W) (ws : List W) :
    pass_time_window item ((ws.map fedFull : List (Slot W R))) = ws.map fedFull := by
  induction ws with
  | nil => rfl
  | cons w rest ih => simp [pass_time_window_fedFull, ih]

lemma get_result_all_empty {W P : Type} (pool : List (Slot W (P × Nat)))
    (h : ∀ s ∈ pool, s.output = none) :
    get_result pool = ((none, 0), pool) := by
  induction pool with
  | nil => rfl
  | cons s rest ih =>
    have hs : s.output = none := h s (List.mem_cons_self s rest)
    have hrest := ih (fun x hx => h x (List.mem_cons_of_mem s hx))
    simp [get_result, hs, hrest]

lemma get_result_first_full {W P : Type} (pre : List (Slot W (P × Nat)))
    (s : Slot W (P × Nat)) (rest : List (Slot W (P × Nat))) (p : P) (fid : Nat)
    (hpre : ∀ x ∈ pre, x.output = none) (hs : s.output = some (p, fid)) :
    get_result (pre ++ s :: rest)
      = ((some p, fid), pre ++ { s with output := none } :: rest) := by
  induction pre with
  | nil => simp [get_result, hs]
  | cons a as ih =>
    have ha : a.output = none := hpre a (List.mem_cons_self a as)
    have := ih (fun x hx => hpre x (List.mem_cons_of_mem a hx))
    simp [get_result, ha, this]

@[simp] lemma collect_update_last_prob {α : Type} (tr : SimbaThresholdBehaviorPoolTrigger α)
    (res : Option ℚ) : (collect_update tr res).last_prob = res.getD tr.last_prob := by
  cases res <;> rfl

@[simp] lemma collect_update_trigger_threshold {α : Type}
    (tr : SimbaThresholdBehaviorPoolTrigger α) (res : Option ℚ) :
    (collect_update tr res).trigger_threshold = tr.trigger_threshold := by
  cases res <;> rfl

@[simp] lemma collect_update_feature_id {α : Type} (tr : SimbaThresholdBehaviorPoolTrigger α)
    (res : Option ℚ) : (collect_update tr res).feature_id = tr.feature_id := by
  cases res <;> rfl

@[simp] lemma collect_update_time_window {α : Type} (tr : SimbaThresholdBehaviorPoolTrigger α)
    (res : Option ℚ) : (collect_update tr res).time_window = tr.time_window := by
  cases res <;> rfl

@[simp] lemma collect_update_time_window_len {α : Type}
    (tr : SimbaThresholdBehaviorPoolTrigger α) (res : Option ℚ) :
    (collect_update tr res).time_window_len = tr.time_window_len := by
  cases res <;> rfl

@[simp] lemma threshold_update_trigger_threshold {α : Type}
    (tr : SimbaThresholdBehaviorPoolTrigger α) (tp : Option ℚ) :
    (threshold_update tr tp).trigger_threshold = tp.getD tr.trigger_threshold := by
  cases tp <;> rfl

@[simp] lemma threshold_update_last_prob {α : Type}
    (tr : SimbaThresholdBehaviorPoolTrigger α) (tp : Option ℚ) :
    (threshold_update tr tp).last_prob = tr.last_prob := by
  cases tp <;> rfl

@[simp] lemma threshold_update_feature_id {α : Type}
    (tr : SimbaThresholdBehaviorPoolTrigger α) (tp : Option ℚ) :
    (threshold_update tr tp).feature_id = tr.feature_id := by
  cases tp <;> rfl

@[simp] lemma threshold_update_time_window {α : Type}
    (tr : SimbaThresholdBehaviorPoolTrigger α) (tp : Option ℚ) :
    (threshold_update tr tp).time_window = tr.time_window := by
  cases tp <;> rfl

@[simp] lemma threshold_update_time_window_len {α : Type}
    (tr : SimbaThresholdBehaviorPoolTrigger α) (tp : Option ℚ) :
    (threshold_update tr tp).time_window_len = tr.time_window_len := by
  cases tp <;> rfl

lemma check_skeleton_state {Skel α : Type} (t : Skel → α)
    (tr : SimbaThresholdBehaviorPoolTrigger α) (pool : SimbaPool α)
    (skeleton : Skel) (target_prob : Option ℚ) :
    let w := deque_append tr.time_window_len tr.time_window (t skeleton)
    let out := check_skeleton t tr pool skeleton target_prob
    out.2.1.time_window = w
    ∧ out.2.1.time_window_len = tr.time_window_len
    ∧ out.2.1.feature_id = (if w.length = tr.time_window_len then tr.feature_id + 1 else tr.feature_id)
    ∧ out.2.1.trigger_threshold = target_prob.getD tr.trigger_threshold
    ∧ out.2.1.last_prob = ((get_result (dispatched_pool t tr pool skeleton)).1.1).getD tr.last_prob
    ∧ out.2.2 = (get_result (dispatched_pool t tr pool skeleton)).2
    ∧ out.1 = decide (out.2.1.trigger_threshold ≤ out.2.1.last_prob) := by
  by_cases h : (deque_append tr.time_window_len tr.time_window (t skeleton)).length = tr.time_window_len <;>
    simp [check_skeleton, dispatched_pool, fill_time_window, h]

lemma check_skeleton_offer {Skel α : Type} (t : Skel → α)
    (tr : SimbaThresholdBehaviorPoolTrigger α) (pool : SimbaPool α)
    (skeleton : Skel) (target_prob : Option ℚ) :
    (check_skeleton t tr pool skeleton target_prob).2.2
      = (get_result ((offered_item t tr skeleton).elim pool
          (fun it => pass_time_window it pool))).2
    ∧ (check_skeleton t tr pool skeleton target_prob).2.1.feature_id
      = (if (offered_item t tr skeleton).isSome then tr.feature_id + 1 else tr.feature_id) := by
  by_cases h : (deque_append tr.time_window_len tr.time_window (t skeleton)).length = tr.time_window_len <;>
    simp [check_skeleton, offered_item, fill_time_window, h]

@[simp] lemma target_update_trigger {α : Type} (tr : BsoidClassBehaviorPoolTrigger α)
    (targetCls : Option (List Int)) :
    (target_update tr targetCls).trigger = targetCls.getD tr.trigger := by
  cases targetCls <;> rfl

@[simp] lemma target_update_last_result {α : Type} (tr : BsoidClassBehaviorPoolTrigger α)
    (targetCls : Option (List Int)) :
    (target_update tr targetCls).last_result = tr.last_result := by
  cases targetCls <;> rfl

@[simp] lemma bsoid_step_trigger {Skel α : Type} (t : Skel → α)
    (tr : BsoidClassBehaviorPoolTrigger α) (pool : BsoidPool α) (skeleton : Skel) :
    (bsoid_step t tr pool skeleton).1.trigger = tr.trigger := by
  unfold bsoid_step bsoid_fill_time_window
  by_cases h :
      (deque_appendleft tr.time_window_len tr.time_window (t skeleton)).length
        = tr.time_window_len <;>
    simp [h]

lemma match_loop_eq (v : Int) (cs : List Int) (r : Bool) :
    match_loop v cs r = (r || decide (v ∈ cs)) := by
  induction cs generalizing r with
  | nil => simp [match_loop]
  | cons c cs ih =>
    rcases eq_or_ne v c with hv | hv
    · subst hv
      simp [match_loop, ih]
    · simp [match_loop, hv, ih]

lemma bsoid_decide_ok {α : Type} (tr : BsoidClassBehaviorPoolTrigger α)
    (targetCls : Option (List Int)) (pool : BsoidPool α)
    (b : Bool) (tr2 : BsoidClassBehaviorPoolTrigger α) (pool2 : BsoidPool α) :
    bsoid_decide tr targetCls pool = Except.ok (b, tr2, pool2) →
    tr2 = target_update tr targetCls ∧ pool2 = pool
      ∧ ∀ v rest, tr2.last_result = v :: rest → (b = true ↔ v ∈ tr2.trigger) := by
  intro h
  simp only [bsoid_decide] at h
  split at h
  · simp at h
  · rename_i v0 rest0 hl
    simp only [Except.ok.injEq, Prod.mk.injEq] at h
    obtain ⟨hb, htr, hpool⟩ := h
    refine ⟨htr.symm, hpool.symm, ?_⟩
    intro v rest hv
    rw [← htr, hl] at hv
    simp only [List.cons.injEq] at hv
    obtain ⟨hv1, -⟩ := hv
    subst hv1
    rw [← hb, ← htr, match_loop_eq]
    simp

lemma pass_time_window_ids {α : Type} (it : List α × Nat) (pool : SimbaPool α)
    (hit : 1 ≤ it.2) (h : pool_ids_ok pool) : pool_ids_ok (pass_time_window it pool) := by
  induction pool with
  | nil => simpa [pass_time_window] using h
  | cons s rest ih =>
    have hs : slot_ids_ok s := h s (List.mem_cons_self s rest)
    have hrest : pool_ids_ok rest := fun x hx => h x (List.mem_cons_of_mem s hx)
    have hset : slot_ids_ok { s with input := some it, running := true } := by
      refine ⟨fun w fid hw => ?_, hs.2⟩
      simp only [Option.some.injEq] at hw
      rw [hw] at hit
      exact hit
    have hset2 : slot_ids_ok { s with input := some it } := by
      refine ⟨fun w fid hw => ?_, hs.2⟩
      simp only [Option.some.injEq] at hw
      rw [hw] at hit
      exact hit
    simp only [pass_time_window]
    split_ifs with h1 h2 h3
    · intro x hx
      rcases List.mem_cons.mp hx with hx | hx
      · rw [hx]; exact hset
      · exact hrest x hx
    · intro x hx
      rcases List.mem_cons.mp hx with hx | hx
      · rw [hx]; exact hs
      · exact ih hrest x hx
    · intro x hx
      rcases List.mem_cons.mp hx with hx | hx
      · rw [hx]; exact hset2
      · exact hrest x hx
    · intro x hx
      rcases List.mem_cons.mp hx with hx | hx
      · rw [hx]; exact hs
      · exact ih hrest x hx

lemma get_result_pool_ids {α : Type} (pool : SimbaPool α)
    (h : pool_ids_ok pool) : pool_ids_ok ((get_result pool).2) := by
  induction pool with
  | nil => simpa [get_result] using h
  | cons s rest ih =>
    have hs : slot_ids_ok s := h s (List.mem_cons_self s rest)
    have hrest : pool_ids_ok rest := fun x hx => h x (List.mem_cons_of_mem s hx)
    cases ho : s.output with
    | some pr =>
      simp only [get_result, ho]
      intro x hx
      rcases List.mem_cons.mp hx with hx | hx
      · rw [hx]
        exact ⟨hs.1, fun p fid hpf => by simp at hpf⟩
      · exact hrest x hx
    | none =>
      simp only [get_result, ho]
      intro x hx
      rcases List.mem_cons.mp hx with hx | hx
      · rw [hx]; exact hs
      · exact ih hrest x hx

lemma get_result_id_pos {α : Type} (pool : SimbaPool α) (h : pool_ids_ok pool)
    (p : ℚ) (fid : Nat) (hr : (get_result pool).1 = (some p, fid)) : 1 ≤ fid := by
  induction pool with
  | nil => simp [get_result] at hr
  | cons s rest ih =>
    have hs : slot_ids_ok s := h s (List.mem_cons_self s rest)
    have hrest : pool_ids_ok rest := fun x hx => h x (List.mem_cons_of_mem s hx)
    cases ho : s.output with
    | some pr =>
      simp only [get_result, ho, Prod.mk.injEq] at hr
      rw [← hr.2]
      exact hs.2 pr.1 pr.2 (by rw [ho])
    | none =>
      simp only [get_result, ho] at hr
      exact ih hrest hr

lemma worker_step_ids {α : Type} (f : List α → ℚ) (s : Slot (List α × Nat) (ℚ × Nat))
    (hs : slot_ids_ok s) : slot_ids_ok (worker_step f s) := by
  unfold worker_step
  cases hi : s.input with
  | none =>
    cases s.output <;> simpa [hi] using hs
  | some it =>
    cases ho : s.output with
    | some pr => simpa [hi, ho] using hs
    | none =>
      refine ⟨fun w fid hw => by simp at hw, fun p fid hpf => ?_⟩
      simp only [Option.some.injEq, Prod.mk.injEq] at hpf
      rw [← hpf.2]
      exact hs.1 it.1 it.2 (by rw [hi])

lemma modify_slot_ids {α : Type} (f : List α → ℚ) (i : Nat) (pool : SimbaPool α)
    (h : pool_ids_ok pool) : pool_ids_ok (modify_slot (worker_step f) i pool) := by
  induction pool generalizing i with
  | nil => simpa [modify_slot] using h
  | cons s rest ih =>
    have hs : slot_ids_ok s := h s (List.mem_cons_self s rest)
    have hrest : pool_ids_ok rest := fun x hx => h x (List.mem_cons_of_mem s hx)
    cases i with
    | zero =>
      simp only [modify_slot]
      intro x hx
      rcases List.mem_cons.mp hx with hx | hx
      · rw [hx]; exact worker_step_ids f s hs
      · exact hrest x hx
    | succ j =>
      simp only [modify_slot]
      intro x hx
      rcases List.mem_cons.mp hx with hx | hx
      · rw [hx]; exact hs
      · exact ih j hrest x hx

lemma sys_step_inv {Skel α : Type} (t : Skel → α) (f : List α → ℚ)
    (s : SimbaSystem α) (e : SysEvent Skel) (h : sys_inv s) :
    sys_inv (sys_step t f s e) := by
  cases e with
  | work i =>
    exact ⟨h.1, modify_slot_ids f i s.pool h.2⟩
  | frame sk tp =>
    obtain ⟨hoffer, hfid⟩ := check_skeleton_offer t s.trig s.pool sk tp
    cases ho : offered_item t s.trig sk with
    | none =>
      refine ⟨?_, ?_⟩
      · simp only [sys_step, ho, Option.elim, hfid]
        simpa [ho] using h.1
      · simp only [sys_step, hoffer, ho, Option.elim]
        exact get_result_pool_ids s.pool h.2
    | some it =>
      have hit : it = ((deque_append s.trig.time_window_len s.trig.time_window (t sk)),
          s.trig.feature_id + 1) := by
        simp only [offered_item] at ho
        split_ifs at ho with hw
        exact (Option.some.inj ho).symm
      refine ⟨?_, ?_⟩
      · simp only [sys_step, ho, Option.elim, hfid, List.map_append, h.1, hit]
        simp [List.range'_concat, Nat.add_comm]
      · simp only [sys_step, hoffer, ho, Option.elim]
        refine get_result_pool_ids _ (pass_time_window_ids it s.pool ?_ h.2)
        rw [hit]
        exact Nat.le_add_left 1 _

lemma sys_run_inv {Skel α : Type} (t : Skel → α) (f : List α → ℚ)
    (events : List (SysEvent Skel)) (s0 : SimbaSystem α) (h : sys_inv s0) :
    sys_inv (sys_run t f events s0) := by
  induction events generalizing s0 with
  | nil => exact h
  | cons e es ih => exact ih (sys_step t f s0 e) (sys_step_inv t f s0 e h)

end DLStream

namespace DLStream

/-- C1: the claim asserts that whenever the pool contains a not-yet-fed slot
with an empty input mailbox, dispatch assigns the offered item to the first
such slot, even when an earlier-indexed fed slot has an empty input and a
full output mailbox. The code refutes this: pass_time_window performs one
interleaved scan, so in the pool [fed slot with empty input and full output,
unfed slot with empty input] the item 5 goes to slot 0 by the steady-state
rule and the unfed slot 1 stays unfed and empty. -/
theorem dispatch_priority_counterexample :
    ([(⟨true, none, some 7⟩ : Slot Nat Nat), ⟨false, none, none⟩])[1]? =
        some ⟨false, none, none⟩
    ∧ pass_time_window 5 [(⟨true, none, some 7⟩ : Slot Nat Nat), ⟨false, none, none⟩]
        = [⟨true, some 5, some 7⟩, ⟨false, none, none⟩]
    ∧ (pass_time_window 5 [(⟨true, none, some 7⟩ : Slot Nat Nat), ⟨false, none, none⟩])[1]?
        = some ⟨false, none, none⟩ := by
  refine ⟨rfl, ?_, ?_⟩ <;> rfl

/-- C1 (amended): dispatch scans the slots once in fixed index order and
assigns the item to the first slot satisfying the rule applicable to that
slot — an unfed slot receives it iff its input mailbox is empty (and is
marked fed), a fed slot receives it iff its input mailbox is empty and its
output mailbox is full — so at most one slot receives the item per call and
no cross-slot priority of the warm-up rule over the steady-state rule
exists. Stated as: pass_time_window equals the first-eligible-slot
specification dispatch_spec. -/
theorem pass_time_window_eq_dispatch_spec {W R : Type} (item : W) (pool : List (Slot W R)) :
    pass_time_window item pool = dispatch_spec item pool := by
  induction pool with
  | nil => rfl
  | cons s rest ih =>
    by_cases hr : s.running
    · by_cases hin : s.input.isNone
      · by_cases hout : s.output.isSome
        · simp [pass_time_window, dispatch_spec, eligible, hr, hin, hout]
        · simp [pass_time_window, dispatch_spec, eligible, hr, hin, hout, ih]
      · simp [pass_time_window, dispatch_spec, eligible, hr, hin, ih]
    · by_cases hin : s.input.isNone
      · simp [pass_time_window, dispatch_spec, eligible, hr, hin]
      · simp [pass_time_window, dispatch_spec, eligible, hr, hin, ih]

/-- C2: saturation and silent drop. Starting from a freshly initiated pool of
size N = ws.length in which no worker has consumed its input and nothing was
collected, dispatching the windows ws back to back fills all N input
mailboxes in order, marking every slot fed with an empty output mailbox (the
warm-up rule), and one further dispatch call assigns to no slot and returns
the pool completely unchanged — the extra window is silently discarded; the
function is total, so no error is raised. -/
theorem saturation_and_silent_drop {W R : Type} (ws : List W) (extra : W) :
    dispatch_seq ws (initiate_pool W R ws.length) = ws.map fedFull
    ∧ pass_time_window extra (dispatch_seq ws (initiate_pool W R ws.length))
        = dispatch_seq ws (initiate_pool W R ws.length) := by
  have h := dispatch_seq_saturate (W := W) (R := R) ws []
  simp only [List.map_nil, List.nil_append] at h
  exact ⟨h, by rw [h]; exact pass_time_window_full_pool extra ws⟩

/-- C3: get_result returns at most one result per call (its return type holds
a single optional payload). When no output mailbox is full, it returns the
sentinel (no payload, id 0) and leaves the pool unchanged, so an immediate
second call returns the sentinel again; when some output mailbox is full, it
returns the content of the first such slot in index order and drains exactly
that mailbox, leaving every other slot untouched, so the same result cannot
be returned twice. -/
theorem get_result_sentinel_and_first_full {W P : Type} :
    (∀ pool : List (Slot W (P × Nat)), (∀ s ∈ pool, s.output = none) →
      get_result pool = ((none, 0), pool)
      ∧ get_result (get_result pool).2 = ((none, 0), pool))
    ∧ (∀ (pre : List (Slot W (P × Nat))) s rest (p : P) (fid : Nat),
        (∀ x ∈ pre, x.output = none) → s.output = some (p, fid) →
        get_result (pre ++ s :: rest)
          = ((some p, fid), pre ++ { s with output := none } :: rest)) := by
  constructor
  · intro pool h
    have h1 := get_result_all_empty pool h
    exact ⟨h1, by rw [h1]; exact h1⟩
  · intro pre s rest p fid hpre hs
    exact get_result_first_full pre s rest p fid hpre hs

/-- C3 witness: the theorem applied to the concrete idle pool of two slots
(sentinel twice, pool unchanged) and to a pool whose second slot is the
first with a full output mailbox (result (7, 3) returned and drained). -/
theorem get_result_sentinel_and_first_full_witness :
    (get_result [(⟨true, some 4, none⟩ : Slot Nat (Nat × Nat)), ⟨false, none, none⟩]
        = ((none, 0), [⟨true, some 4, none⟩, ⟨false, none, none⟩]))
    ∧ (get_result [(⟨true, some 4, none⟩ : Slot Nat (Nat × Nat)),
          ⟨true, none, some (7, 3)⟩, ⟨true, none, some (9, 4)⟩]
        = ((some 7, 3), [⟨true, some 4, none⟩, ⟨true, none, none⟩, ⟨true, none, some (9, 4)⟩])) := by
  constructor
  · exact (get_result_sentinel_and_first_full.1
      [(⟨true, some 4, none⟩ : Slot Nat (Nat × Nat)), ⟨false, none, none⟩]
      (by decide)).1
  · exact get_result_sentinel_and_first_full.2
      [(⟨true, some 4, none⟩ : Slot Nat (Nat × Nat))]
      ⟨true, none, some (7, 3)⟩ [⟨true, none, some (9, 4)⟩] 7 3 (by decide) rfl

/-- C4: on each frame check_skeleton, after feeding the accumulator and the
dispatch attempt, calls get_result once; the cached probability it keeps is
exactly the collected payload when one is non-sentinel and the old cached
value otherwise — written with getD over the Option payload alone, so the
returned FeatureID is ignored entirely and never compared against anything
(an older submission may overwrite a newer one); and the decision is
computed from that cache. -/
theorem check_skeleton_cache_overwrite {Skel α : Type} (t : Skel → α)
    (tr : SimbaThresholdBehaviorPoolTrigger α) (pool : SimbaPool α)
    (skeleton : Skel) (target_prob : Option ℚ) :
    (check_skeleton t tr pool skeleton target_prob).2.1.last_prob
      = ((get_result (dispatched_pool t tr pool skeleton)).1.1).getD tr.last_prob
    ∧ (check_skeleton t tr pool skeleton target_prob).1
      = decide ((check_skeleton t tr pool skeleton target_prob).2.1.trigger_threshold
          ≤ (check_skeleton t tr pool skeleton target_prob).2.1.last_prob) := by
  obtain ⟨-, -, -, -, h5, -, h7⟩ := check_skeleton_state t tr pool skeleton target_prob
  exact ⟨h5, h7⟩

/-- C5: with window capacity 3, feeding frames f1..f5 one at a time produces
no dispatch attempt at f1 and f2, and one dispatch attempt at each of f3,
f4, f5 whose WorkItems carry the three most recent transformed frames and
the distinct, strictly increasing ids 1, 2, 3; the feature id counter ends
at 3, incremented once per dispatch attempt. The last conjunct ties the
recorded trace to the real pool interaction of check_skeleton: the pool
passed to the collection step is the input pool when the observation is
none, and the input pool after pass_time_window on the observed WorkItem
otherwise. -/
theorem accumulator_window3_trace {Skel α : Type} (t : Skel → α) (thr : ℚ)
    (f1 f2 f3 f4 f5 : Skel) (pool : SimbaPool α) :
    (run_check t (simba_trigger_init α thr 3, pool) [f1, f2, f3, f4, f5]).2
      = [none, none, some ([t f1, t f2, t f3], 1), some ([t f2, t f3, t f4], 2),
          some ([t f3, t f4, t f5], 3)]
    ∧ (run_check t (simba_trigger_init α thr 3, pool) [f1, f2, f3, f4, f5]).1.1.feature_id = 3
    ∧ (∀ (tr : SimbaThresholdBehaviorPoolTrigger α) (p : SimbaPool α) (sk : Skel) (tp : Option ℚ),
        (check_skeleton t tr p sk tp).2.2
          = (get_result ((offered_item t tr sk).elim p (fun it => pass_time_window it p))).2
        ∧ (check_skeleton t tr p sk tp).2.1.feature_id
          = (if (offered_item t tr sk).isSome then tr.feature_id + 1 else tr.feature_id)) := by
  refine ⟨?_, ?_, fun tr p sk tp => check_skeleton_offer t tr p sk tp⟩ <;>
    simp [run_check, check_skeleton, offered_item, fill_time_window,
      simba_trigger_init, deque_append]

/-- C6: the threshold-variant decision of check_skeleton is true exactly when
the cached probability (after this call's collection) is at least the
effective threshold, where the effective threshold is the per-call
target_prob when supplied and the configured one otherwise; the override is
stored in the trigger state, so it also governs subsequent calls. -/
theorem threshold_decision_rule {Skel α : Type} (t : Skel → α)
    (tr : SimbaThresholdBehaviorPoolTrigger α) (pool : SimbaPool α)
    (skeleton : Skel) (target_prob : Option ℚ) :
    ((check_skeleton t tr pool skeleton target_prob).1 = true
      ↔ target_prob.getD tr.trigger_threshold
          ≤ (check_skeleton t tr pool skeleton target_prob).2.1.last_prob)
    ∧ (check_skeleton t tr pool skeleton target_prob).2.1.trigger_threshold
      = target_prob.getD tr.trigger_threshold := by
  obtain ⟨-, -, -, h4, -, -, h7⟩ := check_skeleton_state t tr pool skeleton target_prob
  refine ⟨?_, h4⟩
  rw [h7, h4]
  exact decide_eq_true_iff

/-- C7: whenever the Bsoid check_skeleton returns normally, the returned
boolean is true iff the head of the cached label list is a member of the
effective target list (the source iterates the target list and matches on
equality, which match_loop_eq shows is membership), and the effective
target list is the per-call target_class when supplied and the stored one
otherwise. -/
theorem bsoid_label_decision_rule {Skel α : Type} (t : Skel → α)
    (tr : BsoidClassBehaviorPoolTrigger α) (pool : BsoidPool α)
    (skeleton : Skel) (targetCls : Option (List Int)) (b : Bool)
    (tr2 : BsoidClassBehaviorPoolTrigger α) (pool2 : BsoidPool α)
    (v : Int) (rest : List Int) :
    bsoid_check_skeleton t tr pool skeleton targetCls = Except.ok (b, tr2, pool2) →
    tr2.last_result = v :: rest →
    (b = true ↔ v ∈ tr2.trigger) ∧ tr2.trigger = targetCls.getD tr.trigger := by
  intro h hlast
  simp only [bsoid_check_skeleton] at h
  split at h
  · simp at h
  · obtain ⟨htr, -, hiff⟩ := bsoid_decide_ok _ _ _ _ _ _ h
    refine ⟨hiff v rest hlast, ?_⟩
    rw [htr]
    simp
  · obtain ⟨htr, -, hiff⟩ := bsoid_decide_ok _ _ _ _ _ _ h
    refine ⟨hiff v rest hlast, ?_⟩
    rw [htr]
    simp

/-- C7 witness: the theorem applied to a concrete one-frame run with window
capacity 1, target list [2] and an empty pool: the call returns normally
with decision false, cached head label -1 and target list [2]. -/
theorem bsoid_label_decision_rule_witness :
    (false = true ↔ (-1 : Int) ∈ ([2] : List Int))
    ∧ ((⟨[2], [-1], 1, 1, [0]⟩ : BsoidClassBehaviorPoolTrigger Nat).trigger
        = (none : Option (List Int)).getD (bsoid_trigger_init Nat [2] 1).trigger) := by
  exact bsoid_label_decision_rule (fun n : Nat => n) (bsoid_trigger_init Nat [2] 1)
    [] 0 none false ⟨[2], [-1], 1, 1, [0]⟩ [] (-1) [] rfl rfl

/-- C8: sentinel-id disjointness. Starting from a freshly constructed
trigger (feature id 0) and pool, after any interleaving of frame events and
worker-cycle events: the ids of the WorkItems handed to the pool so far are
exactly 1, 2, ..., feature_id in order (the counter is incremented before
every dispatch attempt, so ids start at 1 and strictly increase across the
attempts of the instance), every id held in any input or output mailbox is
at least 1, and any non-sentinel result returned by a collect on the final
state carries an id different from the sentinel id 0. -/
theorem feature_id_sentinel_disjoint {Skel α : Type} (t : Skel → α) (f : List α → ℚ)
    (thr : ℚ) (wlen n : Nat) (events : List (SysEvent Skel)) :
    (sys_run t f events (sys_init α thr wlen n)).log.map Prod.snd
      = List.range' 1 (sys_run t f events (sys_init α thr wlen n)).trig.feature_id
    ∧ pool_ids_ok (sys_run t f events (sys_init α thr wlen n)).pool
    ∧ (∀ (p : ℚ) (fid : Nat),
        (get_result (sys_run t f events (sys_init α thr wlen n)).pool).1 = (some p, fid) →
        fid ≠ 0) := by
  have hinit : sys_inv (sys_init α thr wlen n) := by
    constructor
    · simp [sys_init, simba_trigger_init]
    · intro s hs
      rw [List.eq_of_mem_replicate hs]
      exact ⟨fun w fid hw => by simp [freshSlot] at hw,
        fun p fid hpf => by simp [freshSlot] at hpf⟩
  have h := sys_run_inv t f events (sys_init α thr wlen n) hinit
  refine ⟨h.1, h.2, fun p fid hr => ?_⟩
  have := get_result_id_pos _ h.2 p fid hr
  omega

/-- C8 witness: with window capacity 1 and a pool of one slot, one frame
followed by one worker cycle leaves a collectable result whose id 1 differs
from the sentinel id 0; the equation is discharged by evaluation and the
conclusion by the theorem. -/
theorem feature_id_sentinel_disjoint_witness :
    (get_result (sys_run (fun n : Nat => n) (fun _ => (0 : ℚ))
        [SysEvent.frame 0 none, SysEvent.work 0] (sys_init Nat 0 1 1)).pool).1
      = (some (0 : ℚ), 1)
    ∧ (1 : Nat) ≠ 0 := by
  refine ⟨rfl, ?_⟩
  exact (feature_id_sentinel_disjoint (fun n : Nat => n) (fun _ => (0 : ℚ)) 0 1 1
    [SysEvent.frame 0 none, SysEvent.work 0]).2.2 0 1 rfl

/-- C9: the claim asserts that with debug=True every call of the
head-direction check_skeleton methods reaches an access to the undefined
attribute _end_point. The egocentric variant refutes this: when the angle
condition is met and the configured direction (left) matches neither the
returned direction (right) nor both, the unassigned local result is read
first, so the call fails with UnboundLocalError and never reaches the
_end_point access. -/
theorem ego_unbound_result_counterexample :
    EgoHeaddirectionTrigger.check_skeleton (fun _ _ _ _ _ _ => (rightDir, 180))
        (ego_headdirection_init 10 leftDir true) (fun _ => (0, 0))
      = Except.error unboundLocalError
    ∧ unboundLocalError ≠ endPointError := by
  constructor
  · have h1 : ((180 : ℚ) - |(180 : ℚ)| ≤ 10) := by norm_num
    have h2 : leftDir ≠ rightDir := by decide
    have h3 : leftDir ≠ bothDir := by decide
    simp [EgoHeaddirectionTrigger.check_skeleton, ego_headdirection_init, h1, h2, h3]
  · decide

/-- C9 (amended): with debug=False, HeaddirectionTrigger.check_skeleton
returns normally with an angle payload for every well-formed skeleton, and
with debug=True it always fails on the undefined _end_point attribute.
EgoHeaddirectionTrigger.check_skeleton never returns normally with
debug=True: it fails on the unassigned local result when the angle
condition is met and the configured direction matches neither the returned
one nor both, and on the undefined _end_point attribute otherwise; with
debug=False it returns normally with an angle payload except on that same
unassigned-result path. -/
theorem debug_branch_characterization :
    (∀ (abv : AngleFn) (angle : ℚ) (point : ℚ × ℚ) (sk : Skeleton),
      ∃ b a, HeaddirectionTrigger.check_skeleton abv (headdirection_init angle point false) sk
        = Except.ok (b, HeadResponse.angleBody a))
    ∧ (∀ (abv : AngleFn) (angle : ℚ) (point : ℚ × ℚ) (sk : Skeleton),
      HeaddirectionTrigger.check_skeleton abv (headdirection_init angle point true) sk
        = Except.error endPointError)
    ∧ (∀ (abv : AngleFn) (angle : ℚ) (hd : String) (sk : Skeleton),
      EgoHeaddirectionTrigger.check_skeleton abv (ego_headdirection_init angle hd true) sk
        = (if ego_result_unassigned abv angle hd sk then Except.error unboundLocalError
            else Except.error endPointError))
    ∧ (∀ (abv : AngleFn) (angle : ℚ) (hd : String) (sk : Skeleton),
      EgoHeaddirectionTrigger.check_skeleton abv (ego_headdirection_init angle hd false) sk
        = (if ego_result_unassigned abv angle hd sk then Except.error unboundLocalError
            else Except.ok (decide (ego_true_angle abv sk ≤ angle),
              HeadResponse.angleBody (ego_true_angle abv sk)))) := by
  refine ⟨fun abv angle point sk => ⟨_, _, rfl⟩, fun abv angle point sk => rfl, ?_, ?_⟩
  · intro abv angle hd sk
    simp only [EgoHeaddirectionTrigger.check_skeleton, ego_headdirection_init,
      ego_result_unassigned]
    by_cases h1 : 180 - |(abv (sk tailrootKey).1 (sk tailrootKey).2 (sk neckKey).1
        (sk neckKey).2 (sk noseKey).1 (sk noseKey).2).2| ≤ angle
    · by_cases h2 : hd = (abv (sk tailrootKey).1 (sk tailrootKey).2 (sk neckKey).1
          (sk neckKey).2 (sk noseKey).1 (sk noseKey).2).1
      · simp [h1, h2]
      · by_cases h3 : hd = bothDir
        · simp [h1, h2, h3]
        · simp [h1, h2, h3]
    · simp [h1]
  · intro abv angle hd sk
    simp only [EgoHeaddirectionTrigger.check_skeleton, ego_headdirection_init,
      ego_result_unassigned, ego_true_angle]
    by_cases h1 : 180 - |(abv (sk tailrootKey).1 (sk tailrootKey).2 (sk neckKey).1
        (sk neckKey).2 (sk noseKey).1 (sk noseKey).2).2| ≤ angle
    · by_cases h2 : hd = (abv (sk tailrootKey).1 (sk tailrootKey).2 (sk neckKey).1
          (sk neckKey).2 (sk noseKey).1 (sk noseKey).2).1
      · simp [h1, h2]
      · by_cases h3 : hd = bothDir
        · simp [h1, h2, h3]
        · simp [h1, h2, h3]
    · simp [h1]

/-- C10: for identically constructed triggers (the OutsideTrigger init only
delegates to the RegionTrigger init, so the state is the same value) and
every well-formed skeleton, the OutsideTrigger decision is exactly the
boolean negation of the RegionTrigger decision, with the identical response
body. -/
theorem outside_negates_region (tr : RegionTrigger) (sk : Skeleton) :
    OutsideTrigger.check_skeleton tr sk
      = (!(RegionTrigger.check_skeleton tr sk).1, (RegionTrigger.check_skeleton tr sk).2)
    ∧ ((OutsideTrigger.check_skeleton tr sk).1 = true
        ↔ ¬ ((RegionTrigger.check_skeleton tr sk).1 = true)) := by
  refine ⟨rfl, ?_⟩
  simp [OutsideTrigger.check_skeleton]

end DLStream
